import Mathlib

/-!
Verification of the wellness-tracker data layer.

Shallow embedding of the repository sources:
* `wellness_tracker_complete.py` — permissive schema, entry codec
  (`save_to_database`), repository operations (`load_from_database`,
  `check_existing_entry`), and the derived-value functions
  (`get_cycle_phase`, the calendar-cell colouring).
* `sqlite_setup_complete.py` — strict schema with CHECK constraints,
  `add_wellness_entry` / `safe_add_entry` / `check_entry_exists`.

Python integers are modelled as `Int`, Python floats carrying exact
decimal slider values as `ℚ`, SQLite TEXT as `String`, BOOLEAN as
`Bool`, nullable columns as `Option`-typed fields.  SQLite CHECK
semantics are modelled faithfully: a CHECK passes when the value is
NULL.  `sqlite3.IntegrityError` (constraint violations, including NOT
NULL) is the `validation` error, distinguishable from a `storage`
(I/O) error.
-/

/-- Phase labelling from `get_cycle_phase` (wellness_tracker_complete.py,
lines 831-841): fixed inclusive range checks over the cycle-day integer. -/
def get_cycle_phase (cycle_day : Int) : String :=
  if 1 ≤ cycle_day ∧ cycle_day ≤ 5 then "Menstrual phase (Days 1-5)"
  else if 6 ≤ cycle_day ∧ cycle_day ≤ 13 then "Follicular phase (Days 6-13)"
  else if 14 ≤ cycle_day ∧ cycle_day ≤ 16 then "Ovulatory phase (Days 14-16)"
  else if 17 ≤ cycle_day ∧ cycle_day ≤ 28 then "Luteal phase (Days 17-28)"
  else "Extended cycle/Irregular"

/-- Arithmetic mean of the three core ratings, as computed at
wellness_tracker_complete.py line 1220 (`avg_wellness`).  The Python
expression is `(mood_value + energy_value + safety_value) / 3` on exact
small integers, modelled in `ℚ`. -/
def avg_wellness (mood energy safety : Int) : ℚ :=
  ((mood : ℚ) + energy + safety) / 3

/-- Calendar-cell colour from the branch at wellness_tracker_complete.py
lines 1223-1228: green when the average is at least 7, yellow when at
least 5, red otherwise. -/
def wellness_colour (mood energy safety : Int) : String :=
  if avg_wellness mood energy safety ≥ 7 then "rgba(76, 175, 80, 0.8)"
  else if avg_wellness mood energy safety ≥ 5 then "rgba(255, 193, 7, 0.8)"
  else "rgba(244, 67, 54, 0.8)"

/-- The three wellness tiers of the spec (§4.4): Good is rendered green,
Fair yellow, Poor red. -/
inductive Tier where
  | Good
  | Fair
  | Poor
deriving DecidableEq

/-- Modelled from the spec wording of §4.4 (`wellness_tier`), to be
compared with the source colouring branch `wellness_colour`: the tier is
read off the same mean with the same cutoffs that the source uses for
its colour. -/
def wellness_tier (mood safety energy : Int) : Tier :=
  if avg_wellness mood energy safety ≥ 7 then Tier.Good
  else if avg_wellness mood energy safety ≥ 5 then Tier.Fair
  else Tier.Poor

/-- The mean of three integers is at least `c` exactly when their sum is
at least `3 * c`. -/
theorem avg_wellness_ge_iff (mood energy safety : Int) (c : Int) :
    avg_wellness mood energy safety ≥ (c : ℚ) ↔ 3 * c ≤ mood + energy + safety := by
  rw [avg_wellness, ge_iff_le, le_div_iff₀ (by norm_num : (0:ℚ) < 3)]
  rw [show ((c:ℚ) * 3) = (((3 * c : Int) : ℚ)) by push_cast; ring]
  rw [show ((mood:ℚ) + energy + safety) = (((mood + energy + safety : Int) : ℚ)) by push_cast; ring]
  exact Int.cast_le

/-- C1 (counterexample): the cycle-phase function does not return the
bare string "Menstrual" at day 1; the source label carries the day-range
suffix. -/
theorem get_cycle_phase_one_ne_short : get_cycle_phase 1 ≠ "Menstrual" := by
  decide

/-- C1 (amended): for every integer cycle day, `get_cycle_phase` returns
the label "Menstrual phase (Days 1-5)" when 1 ≤ d ≤ 5, "Follicular phase
(Days 6-13)" when 6 ≤ d ≤ 13, "Ovulatory phase (Days 14-16)" when
14 ≤ d ≤ 16, "Luteal phase (Days 17-28)" when 17 ≤ d ≤ 28, and
"Extended cycle/Irregular" otherwise; in particular at days 1, 13, 14,
28 and 40 it returns the five labels in that order. -/
theorem get_cycle_phase_policy (d : Int) :
    (1 ≤ d ∧ d ≤ 5 → get_cycle_phase d = "Menstrual phase (Days 1-5)") ∧
    (6 ≤ d ∧ d ≤ 13 → get_cycle_phase d = "Follicular phase (Days 6-13)") ∧
    (14 ≤ d ∧ d ≤ 16 → get_cycle_phase d = "Ovulatory phase (Days 14-16)") ∧
    (17 ≤ d ∧ d ≤ 28 → get_cycle_phase d = "Luteal phase (Days 17-28)") ∧
    (¬ (1 ≤ d ∧ d ≤ 28) → get_cycle_phase d = "Extended cycle/Irregular") ∧
    (get_cycle_phase 1 = "Menstrual phase (Days 1-5)" ∧
     get_cycle_phase 13 = "Follicular phase (Days 6-13)" ∧
     get_cycle_phase 14 = "Ovulatory phase (Days 14-16)" ∧
     get_cycle_phase 28 = "Luteal phase (Days 17-28)" ∧
     get_cycle_phase 40 = "Extended cycle/Irregular") := by
  refine ⟨fun h => ?_, fun h => ?_, fun h => ?_, fun h => ?_, fun h => ?_,
    by decide, by decide, by decide, by decide, by decide⟩
  · unfold get_cycle_phase
    rw [if_pos h]
  · unfold get_cycle_phase
    rw [if_neg (by omega), if_pos h]
  · unfold get_cycle_phase
    rw [if_neg (by omega), if_neg (by omega), if_pos h]
  · unfold get_cycle_phase
    rw [if_neg (by omega), if_neg (by omega), if_neg (by omega), if_pos h]
  · unfold get_cycle_phase
    rw [if_neg (by omega), if_neg (by omega), if_neg (by omega), if_neg (by omega)]

/-- C1 (witness): the amended policy evaluated at day 3 yields the
menstrual-phase label. -/
theorem get_cycle_phase_policy_witness :
    get_cycle_phase 3 = "Menstrual phase (Days 1-5)" :=
  (get_cycle_phase_policy 3).1 (by decide)

/-- C2: the wellness tier computed from the mean of the three ratings is
Good exactly when the mean is at least 7, Fair exactly when it is in
[5, 7), Poor exactly when it is below 5; the tier agrees with the
colour branch of the source (Good = green, Fair = yellow, Poor = red); and
the quoted instances hold, including the boundary case (7,7,6) with mean
20/3. -/
theorem wellness_tier_policy (mood safety energy : Int) :
    (wellness_tier mood safety energy = Tier.Good ↔
      avg_wellness mood energy safety ≥ 7) ∧
    (wellness_tier mood safety energy = Tier.Fair ↔
      5 ≤ avg_wellness mood energy safety ∧ avg_wellness mood energy safety < 7) ∧
    (wellness_tier mood safety energy = Tier.Poor ↔
      avg_wellness mood energy safety < 5) ∧
    (wellness_colour mood energy safety =
      (if wellness_tier mood safety energy = Tier.Good then "rgba(76, 175, 80, 0.8)"
       else if wellness_tier mood safety energy = Tier.Fair then "rgba(255, 193, 7, 0.8)"
       else "rgba(244, 67, 54, 0.8)")) ∧
    (wellness_tier 8 8 8 = Tier.Good ∧ wellness_tier 5 5 5 = Tier.Fair ∧
     wellness_tier 2 2 2 = Tier.Poor ∧ wellness_tier 7 7 6 = Tier.Fair ∧
     avg_wellness 7 6 7 = 20 / 3) := by
  refine ⟨?_, ?_, ?_, ?_, ?_, ?_, ?_, ?_, ?_⟩
  · unfold wellness_tier
    split_ifs with h1 h2
    · simp [h1]
    · simp [h1]
    · simp [h1]
  · unfold wellness_tier
    split_ifs with h1 h2
    · simp only [false_iff]
      push_neg
      intro h5
      exact h1
    · simp [h2, lt_of_not_ge h1]
    · simp [h2]
  · unfold wellness_tier
    split_ifs with h1 h2
    · simp only [false_iff]
      push_neg
      linarith
    · simp only [false_iff]
      push_neg
      exact h2
    · simp [lt_of_not_ge h2]
  · unfold wellness_tier wellness_colour
    split_ifs <;> simp_all
  · norm_num [wellness_tier, avg_wellness]
  · norm_num [wellness_tier, avg_wellness]
  · norm_num [wellness_tier, avg_wellness]
  · norm_num [wellness_tier, avg_wellness]
  · norm_num [avg_wellness]

/-- The Python `str` form of a list of strings, as used by `save_to_database` to
serialize multi-valued fields: square brackets around the
comma-separated single-quoted items (faithful for items without quotes
or backslashes); `str([])` is the two-character text "[]". -/
def pyStr (xs : List String) : String :=
  let q := String.singleton (Char.ofNat 39)
  "[" ++ String.intercalate ", " (xs.map fun s => q ++ s ++ q) ++ "]"

/-- An in-memory entry mapping handed to `save_to_database`
(wellness_tracker_complete.py lines 169-250): a partial record — every
field the caller did not supply is `none`, mirroring `dict.get` misses. -/
structure EntryInput where
  date : Option String := none
  tracking_reason : Option String := none
  mood_rating : Option Int := none
  safety_level : Option Int := none
  energy_level : Option Int := none
  sleep_hours : Option ℚ := none
  water_intake : Option ℚ := none
  social_connection : Option String := none
  daily_win : Option String := none
  quick_mode : Option Bool := none
  exercise_today : Option String := none
  movement_type : Option (List String) := none
  sleep_quality : Option Int := none
  bowel_frequency : Option String := none
  bowel_quality : Option String := none
  digestive_sounds : Option String := none
  physical_symptoms : Option (List String) := none
  body_tension : Option (List String) := none
  stress_level : Option Int := none
  patience_level : Option Int := none
  trauma_responses : Option (List String) := none
  triggers_today : Option String := none
  trigger_impact : Option Int := none
  coping_strategies : Option (List String) := none
  felt_supported : Option String := none
  safe_people_time : Option ℚ := none
  support_types : Option (List String) := none
  relationship_conflicts : Option String := none
  cycle_day : Option Int := none
  period_status : Option String := none
  hormonal_symptoms : Option (List String) := none
  on_birth_control : Option String := none
  pill_day : Option Int := none
  started_new_pack : Option Bool := none
  missed_pills : Option String := none
  estimated_phase : Option String := none
  period_pain : Option Int := none
  body_awareness : Option String := none
  hypervigilance : Option Int := none
  grounding_techniques : Option (List String) := none
  present_moment : Option Int := none
  mindfulness_minutes : Option Int := none
  gratitude : Option String := none
  self_compassion : Option Int := none
  hope_level : Option Int := none
  tongue_colour : Option String := none
  tongue_coating : Option String := none
  tongue_shape : Option (List String) := none
  qi_energy : Option Int := none
  body_temperature : Option String := none
  dampness_signs : Option (List String) := none
  emotional_element : Option String := none
  notes : Option String := none

/-- A stored row of the permissive `wellness_entries` table
(wellness_tracker_complete.py lines 91-164): identity and creation
timestamp are assigned by the store; multi-valued fields are kept only
as their serialized text. -/
structure Row where
  id : Nat
  date : String
  tracking_reason : String
  mood_rating : Int
  safety_level : Int
  energy_level : Int
  sleep_hours : ℚ
  water_intake : ℚ
  social_connection : String
  daily_win : String
  quick_mode : Bool
  exercise_today : String
  movement_type : String
  sleep_quality : Int
  bowel_frequency : String
  bowel_quality : String
  digestive_sounds : String
  physical_symptoms : String
  body_tension : String
  stress_level : Int
  patience_level : Int
  trauma_responses : String
  triggers_today : String
  trigger_impact : Int
  coping_strategies : String
  felt_supported : String
  safe_people_time : ℚ
  support_types : String
  relationship_conflicts : String
  cycle_day : Int
  period_status : String
  hormonal_symptoms : String
  on_birth_control : String
  pill_day : Int
  started_new_pack : Bool
  missed_pills : String
  estimated_phase : String
  period_pain : Int
  body_awareness : String
  hypervigilance : Int
  grounding_techniques : String
  present_moment : Int
  mindfulness_minutes : Int
  gratitude : String
  self_compassion : Int
  hope_level : Int
  tongue_colour : String
  tongue_coating : String
  tongue_shape : String
  qi_energy : Int
  body_temperature : String
  dampness_signs : String
  emotional_element : String
  notes : String
  created_timestamp : Nat

/-- The value tuple built by `save_to_database` (lines 192-246): each
field is looked up with `dict.get` and its documented default
substituted when absent; the ten multi-valued fields are serialized with
`str(...)` (default `[]`). -/
def encodeRow (id ts : Nat) (d : String) (e : EntryInput) : Row where
  id := id
  date := d
  tracking_reason := e.tracking_reason.getD ""
  mood_rating := e.mood_rating.getD 5
  safety_level := e.safety_level.getD 5
  energy_level := e.energy_level.getD 5
  sleep_hours := e.sleep_hours.getD 8
  water_intake := e.water_intake.getD 2.5
  social_connection := e.social_connection.getD ""
  daily_win := e.daily_win.getD ""
  quick_mode := e.quick_mode.getD false
  exercise_today := e.exercise_today.getD ""
  movement_type := pyStr (e.movement_type.getD [])
  sleep_quality := e.sleep_quality.getD 5
  bowel_frequency := e.bowel_frequency.getD ""
  bowel_quality := e.bowel_quality.getD ""
  digestive_sounds := e.digestive_sounds.getD ""
  physical_symptoms := pyStr (e.physical_symptoms.getD [])
  body_tension := pyStr (e.body_tension.getD [])
  stress_level := e.stress_level.getD 5
  patience_level := e.patience_level.getD 5
  trauma_responses := pyStr (e.trauma_responses.getD [])
  triggers_today := e.triggers_today.getD ""
  trigger_impact := e.trigger_impact.getD 0
  coping_strategies := pyStr (e.coping_strategies.getD [])
  felt_supported := e.felt_supported.getD ""
  safe_people_time := e.safe_people_time.getD 0
  support_types := pyStr (e.support_types.getD [])
  relationship_conflicts := e.relationship_conflicts.getD ""
  cycle_day := e.cycle_day.getD 0
  period_status := e.period_status.getD ""
  hormonal_symptoms := pyStr (e.hormonal_symptoms.getD [])
  on_birth_control := e.on_birth_control.getD ""
  pill_day := e.pill_day.getD 0
  started_new_pack := e.started_new_pack.getD false
  missed_pills := e.missed_pills.getD ""
  estimated_phase := e.estimated_phase.getD ""
  period_pain := e.period_pain.getD 0
  body_awareness := e.body_awareness.getD ""
  hypervigilance := e.hypervigilance.getD 5
  grounding_techniques := pyStr (e.grounding_techniques.getD [])
  present_moment := e.present_moment.getD 5
  mindfulness_minutes := e.mindfulness_minutes.getD 0
  gratitude := e.gratitude.getD ""
  self_compassion := e.self_compassion.getD 5
  hope_level := e.hope_level.getD 5
  tongue_colour := e.tongue_colour.getD ""
  tongue_coating := e.tongue_coating.getD ""
  tongue_shape := pyStr (e.tongue_shape.getD [])
  qi_energy := e.qi_energy.getD 5
  body_temperature := e.body_temperature.getD ""
  dampness_signs := pyStr (e.dampness_signs.getD [])
  emotional_element := e.emotional_element.getD ""
  notes := e.notes.getD ""
  created_timestamp := ts

/-- Typed failure of a store operation: `validation` models
`sqlite3.IntegrityError` (constraint violation: CHECK or NOT NULL),
`storage` the remaining I/O and connection failures (spec §7). -/
inductive DBError where
  | validation
  | storage
deriving DecidableEq

/-- State of the permissive `wellness_entries` table: AUTOINCREMENT
identity counter (starting at 1), a logical clock standing for
`CURRENT_TIMESTAMP` (strictly increasing across inserts), and the
stored rows. -/
structure CompleteStore where
  nextId : Nat := 1
  clock : Nat := 0
  rows : List Row := []

/-- `save_to_database` (wellness_tracker_complete.py lines 169-250):
encodes the entry with defaults and executes the INSERT.  The only
constraint of the permissive schema is `date DATE NOT NULL`, so binding
an absent date to NULL raises `sqlite3.IntegrityError`; otherwise the
row is appended and `cursor.lastrowid` — the fresh identity — returned. -/
def save_to_database (s : CompleteStore) (e : EntryInput) :
    Except DBError (CompleteStore × Nat) :=
  match e.date with
  | none => Except.error DBError.validation
  | some d =>
      Except.ok
        ({ nextId := s.nextId + 1, clock := s.clock + 1,
           rows := s.rows ++ [encodeRow s.nextId s.clock d e] }, s.nextId)

/-- The store state after a successful permissive insert of an entry
whose date is `d`. -/
def savedStore (s : CompleteStore) (d : String) (e : EntryInput) : CompleteStore :=
  { nextId := s.nextId + 1, clock := s.clock + 1,
    rows := s.rows ++ [encodeRow s.nextId s.clock d e] }

/-- The caller-facing submission step (the try/except of the form handler
around `save_to_database`): on failure the table is left as it was and
no identity is produced. -/
def stepSave (s : CompleteStore) (e : EntryInput) : CompleteStore × Option Nat :=
  match save_to_database s e with
  | Except.ok (s1, id) => (s1, some id)
  | Except.error _ => (s, none)

/-- The ORDER BY key of `load_from_database`: date descending, then
created timestamp descending.  `r1` precedes `r2` when the date of `r1`
is strictly later, or dates are equal and the creation timestamp of `r1` is no
earlier.  ISO dates stored as TEXT compare chronologically under the
lexicographic string order SQLite uses. -/
def rowOrder (r1 r2 : Row) : Prop :=
  r2.date < r1.date ∨ (r1.date = r2.date ∧ r2.created_timestamp ≤ r1.created_timestamp)

instance : DecidableRel rowOrder := fun r1 r2 => by
  unfold rowOrder
  infer_instance

instance : IsTotal Row rowOrder where
  total r1 r2 := by
    unfold rowOrder
    rcases lt_trichotomy r1.date r2.date with h | h | h
    · exact Or.inr (Or.inl h)
    · rcases Nat.le_total r2.created_timestamp r1.created_timestamp with h2 | h2
      · exact Or.inl (Or.inr ⟨h, h2⟩)
      · exact Or.inr (Or.inr ⟨h.symm, h2⟩)
    · exact Or.inl (Or.inl h)

instance : IsTrans Row rowOrder where
  trans r1 r2 r3 h12 h23 := by
    unfold rowOrder at h12 h23 ⊢
    rcases h12 with h12 | ⟨he12, ht12⟩ <;> rcases h23 with h23 | ⟨he23, ht23⟩
    · exact Or.inl (lt_trans h23 h12)
    · exact Or.inl (he23 ▸ h12)
    · exact Or.inl (he12 ▸ h23)
    · exact Or.inr ⟨he12.trans he23, le_trans ht23 ht12⟩

/-- `load_from_database` (lines 252-258): `SELECT *` ordered by date
descending then creation timestamp descending.  Modelled as a stable
sort of the stored rows by that key. -/
def load_from_database (s : CompleteStore) : List Row :=
  List.insertionSort rowOrder s.rows

/-- `check_existing_entry` (lines 260-264): `SELECT id ... WHERE date = ?`
and test whether any row came back. -/
def check_existing_entry (s : CompleteStore) (date : String) : Bool :=
  s.rows.any fun r => r.date = date

/-- An entry mapping handed to `add_wellness_entry`
(sqlite_setup_complete.py lines 255-289): every field is fetched with
`dict.get`, so an absent field is bound to NULL — except `quick_mode`,
which gets the explicit default `False`. -/
structure StrictEntry where
  date : Option String := none
  tracking_reason : Option String := none
  mood_rating : Option Int := none
  safety_level : Option Int := none
  energy_level : Option Int := none
  sleep_hours : Option ℚ := none
  water_intake : Option ℚ := none
  social_connection : Option String := none
  daily_win : Option String := none
  quick_mode : Option Bool := none
  exercise_today : Option String := none
  sleep_quality : Option Int := none
  stress_level : Option Int := none
  triggers_encountered : Option String := none
  physical_symptoms : Option String := none
  coping_strategies : Option String := none
  notes : Option String := none

/-- A stored row of the strict `wellness_entries` table
(sqlite_setup_complete.py lines 43-65): all columns except `id`, `date`
and `created_timestamp` are nullable. -/
structure StrictRow where
  id : Nat
  date : String
  tracking_reason : Option String
  mood_rating : Option Int
  safety_level : Option Int
  energy_level : Option Int
  sleep_hours : Option ℚ
  water_intake : Option ℚ
  social_connection : Option String
  daily_win : Option String
  quick_mode : Bool
  exercise_today : Option String
  sleep_quality : Option Int
  stress_level : Option Int
  triggers_encountered : Option String
  physical_symptoms : Option String
  coping_strategies : Option String
  notes : Option String
  created_timestamp : Nat

/-- SQLite semantics of `CHECK (c >= 1 AND c <= 10)` on a nullable
integer column: a NULL value passes the check. -/
def checkRating (v : Option Int) : Bool :=
  match v with
  | none => true
  | some n => decide (1 ≤ n ∧ n ≤ 10)

/-- SQLite semantics of `CHECK (sleep_hours >= 0 AND sleep_hours <= 24)`. -/
def checkSleepHours (v : Option ℚ) : Bool :=
  match v with
  | none => true
  | some q => decide (0 ≤ q ∧ q ≤ 24)

/-- SQLite semantics of `CHECK (water_intake >= 0)`. -/
def checkWaterIntake (v : Option ℚ) : Bool :=
  match v with
  | none => true
  | some q => decide (0 ≤ q)

/-- Conjunction of every CHECK constraint the strict schema declares
(sqlite_setup_complete.py lines 48-58). -/
def strictChecks (e : StrictEntry) : Bool :=
  checkRating e.mood_rating && checkRating e.safety_level &&
    checkRating e.energy_level && checkSleepHours e.sleep_hours &&
    checkWaterIntake e.water_intake && checkRating e.sleep_quality &&
    checkRating e.stress_level

/-- State of the strict `wellness_entries` table. -/
structure StrictStore where
  nextId : Nat := 1
  clock : Nat := 0
  rows : List StrictRow := []

/-- The bound values of the strict INSERT (sqlite_setup_complete.py
lines 268-286): every field as fetched by `dict.get` — NULL when absent
— except `quick_mode`, whose lookup carries the default `False`. -/
def encodeStrictRow (id ts : Nat) (d : String) (e : StrictEntry) : StrictRow where
  id := id
  date := d
  tracking_reason := e.tracking_reason
  mood_rating := e.mood_rating
  safety_level := e.safety_level
  energy_level := e.energy_level
  sleep_hours := e.sleep_hours
  water_intake := e.water_intake
  social_connection := e.social_connection
  daily_win := e.daily_win
  quick_mode := e.quick_mode.getD false
  exercise_today := e.exercise_today
  sleep_quality := e.sleep_quality
  stress_level := e.stress_level
  triggers_encountered := e.triggers_encountered
  physical_symptoms := e.physical_symptoms
  coping_strategies := e.coping_strategies
  notes := e.notes
  created_timestamp := ts

/-- `add_wellness_entry` (sqlite_setup_complete.py lines 255-289):
executes the INSERT against the strict schema.  A NULL date violates
NOT NULL and any out-of-range present value violates its CHECK, each
raising `sqlite3.IntegrityError` before the commit, so a failed insert
stores nothing; on success `cursor.lastrowid` is returned. -/
def add_wellness_entry (s : StrictStore) (e : StrictEntry) :
    Except DBError (StrictStore × Nat) :=
  match e.date with
  | none => Except.error DBError.validation
  | some d =>
      if strictChecks e then
        Except.ok
          ({ nextId := s.nextId + 1, clock := s.clock + 1,
             rows := s.rows ++ [encodeStrictRow s.nextId s.clock d e] }, s.nextId)
      else Except.error DBError.validation

/-- The store state after a successful strict insert of an entry whose
date is `d`. -/
def addedStrictStore (s : StrictStore) (d : String) (e : StrictEntry) : StrictStore :=
  { nextId := s.nextId + 1, clock := s.clock + 1,
    rows := s.rows ++ [encodeStrictRow s.nextId s.clock d e] }

/-- `safe_add_entry` (sqlite_setup_complete.py lines 345-356): wraps
`add_wellness_entry`, catches `sqlite3.IntegrityError` and returns
`None` instead of an id, leaving the table untouched. -/
def safe_add_entry (s : StrictStore) (e : StrictEntry) :
    StrictStore × Option Nat :=
  match add_wellness_entry s e with
  | Except.ok (s1, id) => (s1, some id)
  | Except.error _ => (s, none)

/-- `check_entry_exists` (sqlite_setup_complete.py lines 301-305):
`SELECT COUNT(*) ... WHERE date = ?` compared against zero. -/
def check_entry_exists (s : StrictStore) (date : String) : Bool :=
  0 < (s.rows.filter fun r => r.date = date).length


/-- The entry mapping with every field absent. -/
def emptyEntry : EntryInput := {}

/-- An entry mapping carrying only a date. -/
def dateOnlyEntry (d : String) : EntryInput :=
  { date := some d }

/-- The strict entry mapping with every field absent. -/
def emptyStrictEntry : StrictEntry := {}

/-- A strict entry mapping carrying only a date. -/
def dateOnlyStrictEntry (d : String) : StrictEntry :=
  { date := some d }

/-- The freshly created permissive store. -/
def emptyStore : CompleteStore := {}

/-- The freshly created strict store. -/
def emptyStrictStore : StrictStore := {}

/-- The `invalid_entry` of sqlite_setup_complete.py lines 360-369:
`mood_rating = 15`, everything else in range. -/
def invalidMoodEntry : StrictEntry :=
  { date := some "2024-01-18", mood_rating := some 15, safety_level := some 5,
    energy_level := some 5, sleep_hours := some 8, water_intake := some 2,
    social_connection := some "Good", daily_win := some "Test entry" }

/-- The same entry with `mood_rating = 10`, the largest in-range value. -/
def validMoodEntry : StrictEntry :=
  { invalidMoodEntry with mood_rating := some 10 }

/-- Shape of a successful permissive insert: the date was present, the
returned identity is the next identity of the store, and exactly the encoded
row was appended while the counter and the clock advanced. -/
theorem save_ok_shape (s : CompleteStore) (e : EntryInput) (s1 : CompleteStore)
    (id : Nat) (h : save_to_database s e = Except.ok (s1, id)) :
    ∃ d, e.date = some d ∧ id = s.nextId ∧ s1 = savedStore s d e := by
  cases he : e.date with
  | none => simp [save_to_database, he] at h
  | some d =>
      simp only [save_to_database, he, Except.ok.injEq, Prod.mk.injEq] at h
      exact ⟨d, rfl, h.2.symm, h.1.symm ▸ rfl⟩

/-- C3: under the strict schema, an insert whose `mood_rating` is 15
fails with the constraint-violation error (distinguishable from a
storage error) and `safe_add_entry` stores nothing; an insert whose
`mood_rating` is 10, whose date is present and whose remaining values
satisfy every declared CHECK succeeds and appends exactly one row. -/
theorem strict_range_enforcement :
    (∀ (s : StrictStore) (e : StrictEntry), e.mood_rating = some 15 →
      add_wellness_entry s e = Except.error DBError.validation ∧
      safe_add_entry s e = (s, none)) ∧
    (DBError.validation ≠ DBError.storage) ∧
    (∀ (s : StrictStore) (e : StrictEntry) (d : String), e.date = some d →
      e.mood_rating = some 10 → strictChecks e = true →
      ∃ s1 id, add_wellness_entry s e = Except.ok (s1, id) ∧
        s1.rows.length = s.rows.length + 1) := by
  refine ⟨fun s e h15 => ?_, by decide, fun s e d hd h10 hck => ?_⟩
  · have hfail : add_wellness_entry s e = Except.error DBError.validation := by
      cases he : e.date with
      | none => simp [add_wellness_entry, he]
      | some d =>
          have : strictChecks e = false := by
            simp [strictChecks, h15, checkRating]
          simp [add_wellness_entry, he, this]
    exact ⟨hfail, by simp [safe_add_entry, hfail]⟩
  · refine ⟨addedStrictStore s d e, s.nextId, ?_, ?_⟩
    · simp [add_wellness_entry, hd, hck, addedStrictStore]
    · simp [addedStrictStore]

/-- C3 (witness): with the `invalid_entry` of the source (mood 15, date
2024-01-18) the strict insert on the empty store fails and stores
nothing, and the same entry with mood 10 succeeds, adding one row. -/
theorem strict_range_enforcement_witness :
    (add_wellness_entry emptyStrictStore invalidMoodEntry =
        Except.error DBError.validation ∧
      safe_add_entry emptyStrictStore invalidMoodEntry = (emptyStrictStore, none)) ∧
    ∃ s1 id, add_wellness_entry emptyStrictStore validMoodEntry =
        Except.ok (s1, id) ∧
      s1.rows.length = emptyStrictStore.rows.length + 1 :=
  ⟨strict_range_enforcement.1 emptyStrictStore invalidMoodEntry rfl,
   strict_range_enforcement.2.2 emptyStrictStore validMoodEntry "2024-01-18"
     rfl rfl (by decide)⟩

/-- C10: in both schema variants the `date` column is NOT NULL: a
permissive insert succeeds exactly when the date is present, and on an
absent date it fails with the constraint error and leaves the table
unchanged; the strict insert likewise fails on an absent date, succeeds
exactly when the date is present and every CHECK passes, and every
CHECK passes on an absent field — so `date` is the only field whose
absence can make either insert fail. -/
theorem date_not_null :
    (∀ (s : CompleteStore) (e : EntryInput), e.date = none →
      save_to_database s e = Except.error DBError.validation ∧
      stepSave s e = (s, none)) ∧
    (∀ (s : CompleteStore) (e : EntryInput),
      (∃ s1 id, save_to_database s e = Except.ok (s1, id)) ↔ e.date.isSome = true) ∧
    (∀ (s : StrictStore) (e : StrictEntry), e.date = none →
      add_wellness_entry s e = Except.error DBError.validation ∧
      safe_add_entry s e = (s, none)) ∧
    (∀ (s : StrictStore) (e : StrictEntry),
      (∃ s1 id, add_wellness_entry s e = Except.ok (s1, id)) ↔
        (e.date.isSome ∧ strictChecks e) = true) ∧
    (∀ e : StrictEntry, e.mood_rating = none → e.safety_level = none →
      e.energy_level = none → e.sleep_hours = none → e.water_intake = none →
      e.sleep_quality = none → e.stress_level = none → strictChecks e = true) := by
  refine ⟨fun s e h => ?_, fun s e => ?_, fun s e h => ?_, fun s e => ?_,
    fun e h1 h2 h3 h4 h5 h6 h7 => ?_⟩
  · have hfail : save_to_database s e = Except.error DBError.validation := by
      simp [save_to_database, h]
    exact ⟨hfail, by simp [stepSave, hfail]⟩
  · cases he : e.date with
    | none => simp [save_to_database, he]
    | some d => simp [save_to_database, he]
  · have hfail : add_wellness_entry s e = Except.error DBError.validation := by
      simp [add_wellness_entry, h]
    exact ⟨hfail, by simp [safe_add_entry, hfail]⟩
  · cases he : e.date with
    | none => simp [add_wellness_entry, he]
    | some d =>
        by_cases hck : strictChecks e = true
        · simp [add_wellness_entry, he, hck]
        · simp [add_wellness_entry, he, hck]
  · simp [strictChecks, h1, h2, h3, h4, h5, h6, h7, checkRating,
      checkSleepHours, checkWaterIntake]

/-- C10 (witness): on the empty stores, the all-absent entry fails both
inserts leaving them unchanged, and an entry carrying only a date
succeeds in both variants. -/
theorem date_not_null_witness :
    (save_to_database emptyStore emptyEntry = Except.error DBError.validation ∧
      stepSave emptyStore emptyEntry = (emptyStore, none)) ∧
    (∃ s1 id, save_to_database emptyStore (dateOnlyEntry "2024-01-15") =
      Except.ok (s1, id)) ∧
    (add_wellness_entry emptyStrictStore emptyStrictEntry =
        Except.error DBError.validation ∧
      safe_add_entry emptyStrictStore emptyStrictEntry = (emptyStrictStore, none)) ∧
    (∃ s1 id, add_wellness_entry emptyStrictStore (dateOnlyStrictEntry "2024-01-15") =
      Except.ok (s1, id)) :=
  ⟨date_not_null.1 emptyStore emptyEntry rfl,
   (date_not_null.2.1 emptyStore (dateOnlyEntry "2024-01-15")).mpr rfl,
   date_not_null.2.2.1 emptyStrictStore emptyStrictEntry rfl,
   (date_not_null.2.2.2.1 emptyStrictStore (dateOnlyStrictEntry "2024-01-15")).mpr
     (by decide)⟩

/-- The store obtained by inserting entries dated 2024-01-15,
2024-01-17, 2024-01-16 — in that order — into the empty store. -/
def demoStore : CompleteStore :=
  (stepSave (stepSave (stepSave emptyStore (dateOnlyEntry "2024-01-15")).1
      (dateOnlyEntry "2024-01-17")).1
    (dateOnlyEntry "2024-01-16")).1

/-- The first demo row: dated 2024-01-15, id 1, timestamp 0. -/
def demoRow15 : Row := encodeRow 1 0 "2024-01-15" (dateOnlyEntry "2024-01-15")

/-- The second demo row: dated 2024-01-17, id 2, timestamp 1. -/
def demoRow17 : Row := encodeRow 2 1 "2024-01-17" (dateOnlyEntry "2024-01-17")

/-- The third demo row: dated 2024-01-16, id 3, timestamp 2. -/
def demoRow16 : Row := encodeRow 3 2 "2024-01-16" (dateOnlyEntry "2024-01-16")

/-- C4: `load_from_database` returns every stored row — a permutation of
the table contents — sorted by date descending and, within equal dates,
by creation timestamp descending; and after inserting entries dated
2024-01-15, 2024-01-17, 2024-01-16 in that order into the empty store
it returns them dated 2024-01-17, 2024-01-16, 2024-01-15. -/
theorem load_all_ordering :
    (∀ s : CompleteStore, (load_from_database s).Perm s.rows ∧
      List.Sorted rowOrder (load_from_database s)) ∧
    (load_from_database demoStore).map Row.date =
      ["2024-01-17", "2024-01-16", "2024-01-15"] := by
  refine ⟨fun s => ⟨List.perm_insertionSort rowOrder s.rows,
    List.sorted_insertionSort rowOrder s.rows⟩, ?_⟩
  have h1 : rowOrder demoRow17 demoRow16 :=
    Or.inl (by rw [show demoRow16.date = "2024-01-16" from rfl,
      show demoRow17.date = "2024-01-17" from rfl, String.lt_iff_toList_lt]; decide)
  have h2 : ¬ rowOrder demoRow15 demoRow17 := by
    intro h
    rcases h with h | ⟨heq, _⟩
    · rw [show demoRow17.date = "2024-01-17" from rfl,
        show demoRow15.date = "2024-01-15" from rfl, String.lt_iff_toList_lt] at h
      exact absurd h (by decide)
    · rw [show demoRow15.date = "2024-01-15" from rfl,
        show demoRow17.date = "2024-01-17" from rfl] at heq
      exact absurd heq (by decide)
  have h3 : ¬ rowOrder demoRow15 demoRow16 := by
    intro h
    rcases h with h | ⟨heq, _⟩
    · rw [show demoRow16.date = "2024-01-16" from rfl,
        show demoRow15.date = "2024-01-15" from rfl, String.lt_iff_toList_lt] at h
      exact absurd h (by decide)
    · rw [show demoRow15.date = "2024-01-15" from rfl,
        show demoRow16.date = "2024-01-16" from rfl] at heq
      exact absurd heq (by decide)
  show (List.insertionSort rowOrder [demoRow15, demoRow17, demoRow16]).map Row.date =
    ["2024-01-17", "2024-01-16", "2024-01-15"]
  simp only [List.insertionSort, List.orderedInsert_nil, List.orderedInsert,
    h1, h2, h3, if_true, if_false, ite_true, ite_false, List.map]
  rfl

/-- C7: `check_existing_entry` answers true exactly when some stored row
carries the queried date, and it never blocks insertion: two successive
inserts with the same date both succeed, with the check answering true
after the first. -/
theorem exists_for_date_advisory (s : CompleteStore) (d : String) :
    (check_existing_entry s d = true ↔ ∃ r ∈ s.rows, r.date = d) ∧
    (∀ e1 e2 : EntryInput, e1.date = some d → e2.date = some d →
      ∃ s1 id1, save_to_database s e1 = Except.ok (s1, id1) ∧
        check_existing_entry s1 d = true ∧
        ∃ s2 id2, save_to_database s1 e2 = Except.ok (s2, id2)) := by
  constructor
  · simp [check_existing_entry, List.any_eq_true]
  · intro e1 e2 h1 h2
    refine ⟨savedStore s d e1, s.nextId, ?_, ?_, savedStore (savedStore s d e1) d e2,
      (savedStore s d e1).nextId, ?_⟩
    · simp [save_to_database, h1, savedStore]
    · simp [check_existing_entry, savedStore, encodeRow]
    · simp [save_to_database, h2, savedStore]

/-- C7 (witness): on the store already holding one entry dated
2024-01-15, a second insert with the same date still succeeds and the
existence check answers true in between. -/
theorem exists_for_date_advisory_witness :
    ∃ s1 id1, save_to_database emptyStore (dateOnlyEntry "2024-01-15") =
        Except.ok (s1, id1) ∧
      check_existing_entry s1 "2024-01-15" = true ∧
      ∃ s2 id2, save_to_database s1 (dateOnlyEntry "2024-01-15") =
        Except.ok (s2, id2) :=
  (exists_for_date_advisory emptyStore "2024-01-15").2
    (dateOnlyEntry "2024-01-15") (dateOnlyEntry "2024-01-15") rfl rfl

/-- Identity discipline of the permissive store: stored identities are
pairwise distinct and all below the AUTOINCREMENT counter. -/
def StoreInv (s : CompleteStore) : Prop :=
  (s.rows.map Row.id).Nodup ∧ ∀ r ∈ s.rows, r.id < s.nextId

/-- C8: every successful insert returns the identity of the row it just
appended; identities grow strictly across successive inserts; and the
no-two-rows-share-an-id invariant (together with the counter bound) is
preserved by insert and holds in the empty store. -/
theorem insert_id_monotone_unique :
    (∀ s e s1 id, save_to_database s e = Except.ok (s1, id) →
      ∃ r, s1.rows = s.rows ++ [r] ∧ r.id = id) ∧
    (∀ s e1 e2 s1 id1 s2 id2,
      save_to_database s e1 = Except.ok (s1, id1) →
      save_to_database s1 e2 = Except.ok (s2, id2) → id1 < id2) ∧
    (∀ s e s1 id, StoreInv s → save_to_database s e = Except.ok (s1, id) →
      StoreInv s1) ∧
    StoreInv emptyStore := by
  refine ⟨fun s e s1 id h => ?_, fun s e1 e2 s1 id1 s2 id2 h1 h2 => ?_,
    fun s e s1 id hinv h => ?_, ?_⟩
  · obtain ⟨d, _, hid, hs1⟩ := save_ok_shape s e s1 id h
    exact ⟨encodeRow s.nextId s.clock d e, by simp [hs1, savedStore], by simp [encodeRow, hid]⟩
  · obtain ⟨d1, _, hid1, hs1⟩ := save_ok_shape s e1 s1 id1 h1
    obtain ⟨d2, _, hid2, _⟩ := save_ok_shape s1 e2 s2 id2 h2
    subst hid1
    subst hid2
    simp [hs1, savedStore]
  · obtain ⟨d, _, hid, hs1⟩ := save_ok_shape s e s1 id h
    obtain ⟨hnd, hbd⟩ := hinv
    subst hs1
    constructor
    · simp only [savedStore, List.map_append, List.map_cons, List.map_nil,
        List.nodup_append, List.nodup_cons, List.nodup_nil, and_true,
        List.not_mem_nil, not_false_eq_true, true_and]
      refine ⟨hnd, ?_⟩
      intro a ha
      simp only [List.mem_singleton, encodeRow]
      intro heq
      obtain ⟨r, hr, hra⟩ := List.mem_map.mp ha
      have := hbd r hr
      omega
    · intro r hr
      simp only [savedStore, List.mem_append, List.mem_singleton] at hr
      rcases hr with hr | hr
      · have := hbd r hr
        simp only [savedStore]
        omega
      · subst hr
        simp [savedStore, encodeRow]
  · constructor
    · simp [emptyStore]
    · intro r hr
      simp [emptyStore] at hr

/-- C8 (witness): two successive inserts into the empty store return
identities 1 and 2, and the invariant carries from the empty store to
the store holding both rows. -/
theorem insert_id_monotone_unique_witness :
    (∃ r, (savedStore emptyStore "2024-01-15" (dateOnlyEntry "2024-01-15")).rows =
      emptyStore.rows ++ [r] ∧ r.id = 1) ∧
    (1 : Nat) < 2 ∧
    StoreInv (savedStore emptyStore "2024-01-15" (dateOnlyEntry "2024-01-15")) := by
  refine ⟨?_, ?_, ?_⟩
  · exact insert_id_monotone_unique.1 emptyStore (dateOnlyEntry "2024-01-15") _ 1 rfl
  · exact insert_id_monotone_unique.2.1 emptyStore (dateOnlyEntry "2024-01-15")
      (dateOnlyEntry "2024-01-15") _ 1 _ 2 rfl rfl
  · exact insert_id_monotone_unique.2.2.1 emptyStore (dateOnlyEntry "2024-01-15") _ 1
      insert_id_monotone_unique.2.2.2 rfl

/-- A helper recording that serializing the empty selection yields the
two-character text. -/
theorem pyStr_nil : pyStr [] = "[]" := rfl

/-- C5: for every input mapping, each absent field is encoded as its
documented default: the 1-10 rating fields as 5, the booleans as false,
sleep hours as 8.0, water intake as 2.5, and every free-text field as
the empty string. -/
theorem encode_defaults (e : EntryInput) (id ts : Nat) (d : String) :
    (e.mood_rating = none → (encodeRow id ts d e).mood_rating = 5) ∧
    (e.safety_level = none → (encodeRow id ts d e).safety_level = 5) ∧
    (e.energy_level = none → (encodeRow id ts d e).energy_level = 5) ∧
    (e.sleep_quality = none → (encodeRow id ts d e).sleep_quality = 5) ∧
    (e.stress_level = none → (encodeRow id ts d e).stress_level = 5) ∧
    (e.patience_level = none → (encodeRow id ts d e).patience_level = 5) ∧
    (e.hypervigilance = none → (encodeRow id ts d e).hypervigilance = 5) ∧
    (e.present_moment = none → (encodeRow id ts d e).present_moment = 5) ∧
    (e.self_compassion = none → (encodeRow id ts d e).self_compassion = 5) ∧
    (e.hope_level = none → (encodeRow id ts d e).hope_level = 5) ∧
    (e.qi_energy = none → (encodeRow id ts d e).qi_energy = 5) ∧
    (e.quick_mode = none → (encodeRow id ts d e).quick_mode = false) ∧
    (e.started_new_pack = none → (encodeRow id ts d e).started_new_pack = false) ∧
    (e.sleep_hours = none → (encodeRow id ts d e).sleep_hours = 8) ∧
    (e.water_intake = none → (encodeRow id ts d e).water_intake = 2.5) ∧
    (e.tracking_reason = none → (encodeRow id ts d e).tracking_reason = "") ∧
    (e.social_connection = none → (encodeRow id ts d e).social_connection = "") ∧
    (e.daily_win = none → (encodeRow id ts d e).daily_win = "") ∧
    (e.exercise_today = none → (encodeRow id ts d e).exercise_today = "") ∧
    (e.bowel_frequency = none → (encodeRow id ts d e).bowel_frequency = "") ∧
    (e.bowel_quality = none → (encodeRow id ts d e).bowel_quality = "") ∧
    (e.digestive_sounds = none → (encodeRow id ts d e).digestive_sounds = "") ∧
    (e.triggers_today = none → (encodeRow id ts d e).triggers_today = "") ∧
    (e.felt_supported = none → (encodeRow id ts d e).felt_supported = "") ∧
    (e.relationship_conflicts = none → (encodeRow id ts d e).relationship_conflicts = "") ∧
    (e.period_status = none → (encodeRow id ts d e).period_status = "") ∧
    (e.on_birth_control = none → (encodeRow id ts d e).on_birth_control = "") ∧
    (e.missed_pills = none → (encodeRow id ts d e).missed_pills = "") ∧
    (e.estimated_phase = none → (encodeRow id ts d e).estimated_phase = "") ∧
    (e.body_awareness = none → (encodeRow id ts d e).body_awareness = "") ∧
    (e.gratitude = none → (encodeRow id ts d e).gratitude = "") ∧
    (e.tongue_colour = none → (encodeRow id ts d e).tongue_colour = "") ∧
    (e.tongue_coating = none → (encodeRow id ts d e).tongue_coating = "") ∧
    (e.body_temperature = none → (encodeRow id ts d e).body_temperature = "") ∧
    (e.emotional_element = none → (encodeRow id ts d e).emotional_element = "") ∧
    (e.notes = none → (encodeRow id ts d e).notes = "") := by
  refine ⟨?_, ?_, ?_, ?_, ?_, ?_, ?_, ?_, ?_, ?_, ?_, ?_, ?_, ?_, ?_, ?_, ?_, ?_, ?_, ?_, ?_, ?_, ?_, ?_, ?_, ?_, ?_, ?_, ?_, ?_, ?_, ?_, ?_, ?_, ?_, ?_⟩ <;>
    · intro h
      simp [encodeRow, h]

/-- C5 (witness): encoding the all-absent mapping yields mood 5,
quick-mode false, 8 hours sleep, 2.5 litres water and empty notes. -/
theorem encode_defaults_witness :
    (encodeRow 1 0 "2024-01-15" emptyEntry).mood_rating = 5 ∧
    (encodeRow 1 0 "2024-01-15" emptyEntry).quick_mode = false ∧
    (encodeRow 1 0 "2024-01-15" emptyEntry).sleep_hours = 8 ∧
    (encodeRow 1 0 "2024-01-15" emptyEntry).water_intake = 2.5 ∧
    (encodeRow 1 0 "2024-01-15" emptyEntry).notes = "" := by
  obtain ⟨h1, h2, h3, h4, h5, h6, h7, h8, h9, h10, h11, h12, h13, h14, h15, h16, h17, h18, h19, h20, h21, h22, h23, h24, h25, h26, h27, h28, h29, h30, h31, h32, h33, h34, h35, h36⟩ := encode_defaults emptyEntry 1 0 "2024-01-15"
  exact ⟨h1 rfl, h12 rfl, h14 rfl, h15 rfl, h36 rfl⟩

/-- C9: each of the ten multi-valued fields that is absent from the
input mapping is stored as the serialized empty list — the two-character
text "[]" — which differs from the empty string that absent free-text
fields receive. -/
theorem encode_multi_valued_default (e : EntryInput) (id ts : Nat) (d : String) :
    pyStr [] = "[]" ∧
    ("[]" : String) ≠ "" ∧
    (e.movement_type = none → (encodeRow id ts d e).movement_type = "[]") ∧
    (e.physical_symptoms = none → (encodeRow id ts d e).physical_symptoms = "[]") ∧
    (e.body_tension = none → (encodeRow id ts d e).body_tension = "[]") ∧
    (e.trauma_responses = none → (encodeRow id ts d e).trauma_responses = "[]") ∧
    (e.coping_strategies = none → (encodeRow id ts d e).coping_strategies = "[]") ∧
    (e.support_types = none → (encodeRow id ts d e).support_types = "[]") ∧
    (e.hormonal_symptoms = none → (encodeRow id ts d e).hormonal_symptoms = "[]") ∧
    (e.grounding_techniques = none → (encodeRow id ts d e).grounding_techniques = "[]") ∧
    (e.dampness_signs = none → (encodeRow id ts d e).dampness_signs = "[]") ∧
    (e.tongue_shape = none → (encodeRow id ts d e).tongue_shape = "[]") := by
  refine ⟨pyStr_nil, by decide, ?_, ?_, ?_, ?_, ?_, ?_, ?_, ?_, ?_, ?_⟩ <;>
    · intro h
      simp [encodeRow, h, pyStr_nil]

/-- C9 (witness): encoding the all-absent mapping stores "[]" for the
movement-type and tongue-shape selections. -/
theorem encode_multi_valued_default_witness :
    (encodeRow 1 0 "2024-01-15" emptyEntry).movement_type = "[]" ∧
    (encodeRow 1 0 "2024-01-15" emptyEntry).tongue_shape = "[]" := by
  obtain ⟨h1, h2, h3, h4, h5, h6, h7, h8, h9, h10, h11, h12⟩ := encode_multi_valued_default emptyEntry 1 0 "2024-01-15"
  exact ⟨h3 rfl, h12 rfl⟩

/-- A sample entry (first sample of sqlite_setup_complete.py lines
89-107, restricted to the fields of the permissive codec): several scalar
fields present, one multi-valued selection, the rest absent. -/
def sampleEntry : EntryInput where
  date := some "2024-01-15"
  mood_rating := some 7
  safety_level := some 6
  energy_level := some 5
  sleep_hours := some 7.5
  water_intake := some 2
  social_connection := some "Good interactions - felt heard"
  daily_win := some "Had a productive therapy session"
  quick_mode := some false
  coping_strategies := some ["Deep breathing", "Journaling"]
  notes := some "Feeling more grounded today"

/-- C6: inserting an entry and reading its row back returns, for every
scalar field present in the entry, exactly the value that was supplied;
the ten multi-valued fields come back only as their serialized text
(`pyStr` of the selection), never as a structured collection — the
read path of the repository returns the stored scalars and text verbatim. -/
theorem encode_decode_roundtrip (s : CompleteStore) (e : EntryInput) (d : String)
    (hd : e.date = some d) :
    ∃ s1 id, save_to_database s e = Except.ok (s1, id) ∧
      ∃ r, r ∈ load_from_database s1 ∧ r.id = id ∧ r.date = d ∧
        (∀ v, e.tracking_reason = some v → r.tracking_reason = v) ∧
        (∀ v, e.mood_rating = some v → r.mood_rating = v) ∧
        (∀ v, e.safety_level = some v → r.safety_level = v) ∧
        (∀ v, e.energy_level = some v → r.energy_level = v) ∧
        (∀ v, e.sleep_hours = some v → r.sleep_hours = v) ∧
        (∀ v, e.water_intake = some v → r.water_intake = v) ∧
        (∀ v, e.social_connection = some v → r.social_connection = v) ∧
        (∀ v, e.daily_win = some v → r.daily_win = v) ∧
        (∀ v, e.quick_mode = some v → r.quick_mode = v) ∧
        (∀ v, e.exercise_today = some v → r.exercise_today = v) ∧
        (∀ v, e.sleep_quality = some v → r.sleep_quality = v) ∧
        (∀ v, e.bowel_frequency = some v → r.bowel_frequency = v) ∧
        (∀ v, e.bowel_quality = some v → r.bowel_quality = v) ∧
        (∀ v, e.digestive_sounds = some v → r.digestive_sounds = v) ∧
        (∀ v, e.stress_level = some v → r.stress_level = v) ∧
        (∀ v, e.patience_level = some v → r.patience_level = v) ∧
        (∀ v, e.triggers_today = some v → r.triggers_today = v) ∧
        (∀ v, e.trigger_impact = some v → r.trigger_impact = v) ∧
        (∀ v, e.felt_supported = some v → r.felt_supported = v) ∧
        (∀ v, e.safe_people_time = some v → r.safe_people_time = v) ∧
        (∀ v, e.relationship_conflicts = some v → r.relationship_conflicts = v) ∧
        (∀ v, e.cycle_day = some v → r.cycle_day = v) ∧
        (∀ v, e.period_status = some v → r.period_status = v) ∧
        (∀ v, e.on_birth_control = some v → r.on_birth_control = v) ∧
        (∀ v, e.pill_day = some v → r.pill_day = v) ∧
        (∀ v, e.started_new_pack = some v → r.started_new_pack = v) ∧
        (∀ v, e.missed_pills = some v → r.missed_pills = v) ∧
        (∀ v, e.estimated_phase = some v → r.estimated_phase = v) ∧
        (∀ v, e.period_pain = some v → r.period_pain = v) ∧
        (∀ v, e.body_awareness = some v → r.body_awareness = v) ∧
        (∀ v, e.hypervigilance = some v → r.hypervigilance = v) ∧
        (∀ v, e.present_moment = some v → r.present_moment = v) ∧
        (∀ v, e.mindfulness_minutes = some v → r.mindfulness_minutes = v) ∧
        (∀ v, e.gratitude = some v → r.gratitude = v) ∧
        (∀ v, e.self_compassion = some v → r.self_compassion = v) ∧
        (∀ v, e.hope_level = some v → r.hope_level = v) ∧
        (∀ v, e.tongue_colour = some v → r.tongue_colour = v) ∧
        (∀ v, e.tongue_coating = some v → r.tongue_coating = v) ∧
        (∀ v, e.qi_energy = some v → r.qi_energy = v) ∧
        (∀ v, e.body_temperature = some v → r.body_temperature = v) ∧
        (∀ v, e.emotional_element = some v → r.emotional_element = v) ∧
        (∀ v, e.notes = some v → r.notes = v) ∧
        r.movement_type = pyStr (e.movement_type.getD []) ∧
        r.physical_symptoms = pyStr (e.physical_symptoms.getD []) ∧
        r.body_tension = pyStr (e.body_tension.getD []) ∧
        r.trauma_responses = pyStr (e.trauma_responses.getD []) ∧
        r.coping_strategies = pyStr (e.coping_strategies.getD []) ∧
        r.support_types = pyStr (e.support_types.getD []) ∧
        r.hormonal_symptoms = pyStr (e.hormonal_symptoms.getD []) ∧
        r.grounding_techniques = pyStr (e.grounding_techniques.getD []) ∧
        r.dampness_signs = pyStr (e.dampness_signs.getD []) ∧
        r.tongue_shape = pyStr (e.tongue_shape.getD []) := by
  refine ⟨savedStore s d e, s.nextId, by simp [save_to_database, hd, savedStore],
    encodeRow s.nextId s.clock d e,
    (List.perm_insertionSort rowOrder (savedStore s d e).rows).mem_iff.mpr
      (by simp [savedStore]),
    rfl, rfl,
    fun v hv => by simp [encodeRow, hv],
    fun v hv => by simp [encodeRow, hv],
    fun v hv => by simp [encodeRow, hv],
    fun v hv => by simp [encodeRow, hv],
    fun v hv => by simp [encodeRow, hv],
    fun v hv => by simp [encodeRow, hv],
    fun v hv => by simp [encodeRow, hv],
    fun v hv => by simp [encodeRow, hv],
    fun v hv => by simp [encodeRow, hv],
    fun v hv => by simp [encodeRow, hv],
    fun v hv => by simp [encodeRow, hv],
    fun v hv => by simp [encodeRow, hv],
    fun v hv => by simp [encodeRow, hv],
    fun v hv => by simp [encodeRow, hv],
    fun v hv => by simp [encodeRow, hv],
    fun v hv => by simp [encodeRow, hv],
    fun v hv => by simp [encodeRow, hv],
    fun v hv => by simp [encodeRow, hv],
    fun v hv => by simp [encodeRow, hv],
    fun v hv => by simp [encodeRow, hv],
    fun v hv => by simp [encodeRow, hv],
    fun v hv => by simp [encodeRow, hv],
    fun v hv => by simp [encodeRow, hv],
    fun v hv => by simp [encodeRow, hv],
    fun v hv => by simp [encodeRow, hv],
    fun v hv => by simp [encodeRow, hv],
    fun v hv => by simp [encodeRow, hv],
    fun v hv => by simp [encodeRow, hv],
    fun v hv => by simp [encodeRow, hv],
    fun v hv => by simp [encodeRow, hv],
    fun v hv => by simp [encodeRow, hv],
    fun v hv => by simp [encodeRow, hv],
    fun v hv => by simp [encodeRow, hv],
    fun v hv => by simp [encodeRow, hv],
    fun v hv => by simp [encodeRow, hv],
    fun v hv => by simp [encodeRow, hv],
    fun v hv => by simp [encodeRow, hv],
    fun v hv => by simp [encodeRow, hv],
    fun v hv => by simp [encodeRow, hv],
    fun v hv => by simp [encodeRow, hv],
    fun v hv => by simp [encodeRow, hv],
    fun v hv => by simp [encodeRow, hv],
    rfl, rfl, rfl, rfl, rfl, rfl, rfl, rfl, rfl, rfl⟩

/-- C6 (witness): inserting the sample entry into the empty store and
reading back its row returns mood 7 and the serialized coping-strategy
selection. -/
theorem encode_decode_roundtrip_witness :
    ∃ s1 id, save_to_database emptyStore sampleEntry = Except.ok (s1, id) ∧
      ∃ r, r ∈ load_from_database s1 ∧ r.id = id ∧
        r.mood_rating = 7 ∧
        r.coping_strategies = pyStr ["Deep breathing", "Journaling"] := by
  obtain ⟨s1, id, hok, r, hmem, hid, hdate, t1, t2, t3, t4, t5, t6, t7, t8, t9, t10, t11, t12, t13, t14, t15, t16, t17, t18, t19, t20, t21, t22, t23, t24, t25, t26, t27, t28, t29, t30, t31, t32, t33, t34, t35, t36, t37, t38, t39, t40, t41, t42, t43, t44, t45, t46, t47, t48, t49, t50, t51, t52⟩ :=
    encode_decode_roundtrip emptyStore sampleEntry "2024-01-15" rfl
  exact ⟨s1, id, hok, r, hmem, hid, t2 7 rfl, t47⟩
